import Mathlib

/-!
Shallow embedding of the pdf extraction pipeline
(`pdf_extraction_agent`): the text stage (`tools/pdf_reader.py`), the
table stage (`tools/table_extractor.py`) and the result combiner
(`agent.py`).  External collaborators (pypdf, pdf2image, camelot, the
vision model) are modelled as explicit outcome parameters: an
`Except Unit _` value stands for "the library call returned this value
or raised".  Machine-level details (image bytes, base64 encoding,
logging, timing) do not influence any modelled result and are elided;
a rasterized page image is identified by an abstract numeric tag.
-/

namespace PdfAgent

/-! ### Python string primitives (modelled on `List Char`) -/

/-- Split a character list at every character satisfying `p`
(the separators are dropped, empty pieces are kept), as Python
`str.split(sep)` does for a one-character separator. -/
def splitOnP (p : Char → Bool) : List Char → List (List Char)
  | [] => [[]]
  | c :: rest =>
    match splitOnP p rest with
    | [] => [[]]
    | t :: ts => if p c then [] :: t :: ts else (c :: t) :: ts

/-- Split at every occurrence of the character `sep`:
Python `str.split(sep)`. -/
def splitOnChar (sep : Char) (cs : List Char) : List (List Char) :=
  splitOnP (fun c => c = sep) cs

/-- Python `str.split()` with no argument: the maximal runs of
non-whitespace characters, in order. -/
def pyWords (s : String) : List (List Char) :=
  (splitOnP Char.isWhitespace s.data).filter (fun t => t ≠ [])

/-- Python substring test `needle in hay`. -/
def pyContains (needle : List Char) : List Char → Bool
  | [] => needle.isEmpty
  | c :: rest => needle.isPrefixOf (c :: rest) || pyContains needle rest

/-- Value of a nonempty all-digit character list, `none` otherwise. -/
def digitsVal (cs : List Char) : Option Nat :=
  match cs with
  | [] => none
  | _ =>
    cs.foldl
      (fun acc c =>
        acc.bind fun n => if c.isDigit then some (n * 10 + (c.toNat - 48)) else none)
      (some 0)

/-- Strip leading and trailing whitespace, Python `str.strip()`. -/
def stripWs (cs : List Char) : List Char :=
  (((cs.dropWhile Char.isWhitespace).reverse).dropWhile Char.isWhitespace).reverse

/-- Python `int(s)` on a decimal string: surrounding whitespace and a
leading sign are accepted, anything else fails (underscore digit
separators are not modelled, no claim involves them). -/
def pyIntVal (cs : List Char) : Option Int :=
  match stripWs cs with
  | '-' :: rest => (digitsVal rest).map fun n => -(n : Int)
  | '+' :: rest => (digitsVal rest).map fun n => (n : Int)
  | other => (digitsVal other).map fun n => (n : Int)

/-- Python list indexing `xs[i]`: negative indices count from the end,
`none` models an `IndexError`. -/
def pyIndex {α : Type} (xs : List α) (i : Int) : Option α :=
  if 0 ≤ i then xs.get? i.toNat
  else if -i ≤ (xs.length : Int) then xs.get? ((xs.length : Int) + i).toNat
  else none

/-- Concatenation of a list of strings (Python `"".join` /
repeated `+=`). -/
def strJoin : List String → String
  | [] => ""
  | s :: rest => s ++ strJoin rest

/-! ### Data model -/

/-- A rasterized page image, identified by an abstract tag
(`pdf2image.convert_from_path` output element). -/
abbrev Image := Nat

/-- One table as camelot reports it: its page, the markdown rendering
of its dataframe, and the dataframe rows
(`df.to_dict(orient="records")`); the pandas conversions are external
collaborators, so their outputs are inputs here. -/
structure CamelotTable where
  page : Int
  markdown : String
  records : List (List (String × String))
deriving DecidableEq, Repr

/-- A table record as built by `TableExtractorTool`: `data` is the
structured row data, present on the camelot path and absent on the
vision path. -/
structure TableRecord where
  page : Int
  markdown : String
  data : Option (List (List (String × String)))
deriving DecidableEq, Repr

/-- An image record as built by `ImageExtractorTool` (the fields the
combiner consumes). -/
structure ImageRecord where
  page : Int
  filename : Option String
  description : String
deriving DecidableEq, Repr

/-- The `PDFExtractionState` TypedDict of `agent.py` (all fields but
the path may be absent). -/
structure PDFExtractionState where
  pdf_path : String
  text : Option String := none
  tables : Option (List TableRecord) := none
  images : Option (List ImageRecord) := none
  final_content : Option String := none
deriving DecidableEq, Repr

/-! ### `PDFReaderTool` (`tools/pdf_reader.py`) -/

/-- `PDFReaderTool._extract_with_pypdf`: the argument is the outcome of
reading the per-page text layer (`.error` if pypdf raised anywhere);
nonempty page texts are concatenated with a trailing blank line, and
any failure is swallowed into the empty string. -/
def extract_with_pypdf : Except Unit (List String) → String
  | .error _ => ""
  | .ok pages => pages.foldl (fun acc t => if t = "" then acc else acc ++ t ++ "\n\n") ""

/-- `PDFReaderTool._is_text_incomplete`: empty text, or fewer than 100
whitespace-delimited words. -/
def is_text_incomplete (text : String) : Bool :=
  if text = "" then true
  else if (pyWords text).length < 100 then true
  else false

/-- One transcription block of the OCR fallback,
`"Page {n}:\n{text}\n\n"`. -/
def pageBlock (n : Nat) (t : String) : String :=
  "Page " ++ toString n ++ ":\n" ++ t ++ "\n\n"

/-- The page loop of `PDFReaderTool._extract_with_llm_ocr`: the list
holds the outcome of each per-page `llm.invoke` call in page order and
`i` is the 0-based loop index; a raised call makes the whole loop
raise. -/
def ocrLoop : List (Except Unit String) → Nat → Except Unit String
  | [], _ => .ok ""
  | r :: rest, i =>
    match r with
    | .error e => .error e
    | .ok t =>
      match ocrLoop rest (i + 1) with
      | .error e => .error e
      | .ok s => .ok (pageBlock (i + 1) t ++ s)

/-- `PDFReaderTool._extract_with_llm_ocr`: the outer `.error` is a
failed `convert_from_path`; any exception inside the try block is
swallowed into the empty string. -/
def extract_with_llm_ocr : Except Unit (List (Except Unit String)) → String
  | .error _ => ""
  | .ok rs =>
    match ocrLoop rs 0 with
    | .ok s => s
    | .error _ => ""

/-- `PDFReaderTool.extract_text`: pypdf first; the OCR fallback runs
when the pypdf text is empty, or when the fallback flag is set and the
text is incomplete.  The first component records whether the vision
fallback was invoked. -/
def extract_text (pypdf : Except Unit (List String))
    (ocr : Except Unit (List (Except Unit String)))
    (fallback_to_llm_ocr : Bool) : Bool × String :=
  let text := extract_with_pypdf pypdf
  if (text == "") || (fallback_to_llm_ocr && is_text_incomplete text) then
    (true, extract_with_llm_ocr ocr)
  else
    (false, text)

/-! ### `TableExtractorTool` (`tools/table_extractor.py`) -/

/-- `TableExtractorTool._extract_with_camelot`: the argument is the
outcome of `camelot.read_pdf` plus the pandas conversions; each found
table becomes a record with its structured rows present, and any
exception is swallowed into the empty list. -/
def extract_with_camelot : Except Unit (List CamelotTable) → List TableRecord
  | .error _ => []
  | .ok ts => ts.map fun t => { page := t.page, markdown := t.markdown, data := some t.records }

/-- Python `range(a, b)` over integers. -/
def pyRange (a b : Int) : List Int :=
  (List.range (b - a).toNat).map fun k => a + k

/-- One comma-separated token of the page specification: a single page
number, or an inclusive `start-end` range; anything else (a failing
`int()` or a wrong unpack arity) raises. -/
def parsePart (part : List Char) : Except Unit (List Int) :=
  if part.contains '-' then
    match (splitOnChar '-' part).map pyIntVal with
    | [some a, some b] => .ok (pyRange a (b + 1))
    | _ => .error ()
  else
    match pyIntVal part with
    | some n => .ok [n]
    | none => .error ()

/-- The page-specification parse loop of
`TableExtractorTool._extract_with_llm` (the `pages != "all"` branch):
the 1-based page numbers denoted by the comma-separated tokens, in
order. -/
def parsePages (pages : String) : Except Unit (List Int) :=
  (splitOnChar ',' pages.data).foldl
    (fun acc part => acc.bind fun ns => (parsePart part).map fun ms => ns ++ ms)
    (.ok [])

/-- The image-selection comprehension
`[images[i] for i in page_indices if i < len(images)]`: an index past
the end is dropped by the guard, a too-negative index raises
`IndexError` (modelled by `.error`). -/
def selectImages (images : List Image) : List Int → Except Unit (List Image)
  | [] => .ok []
  | i :: rest =>
    if i < (images.length : Int) then
      match pyIndex images i with
      | some img => (selectImages images rest).map fun l => img :: l
      | none => .error ()
    else selectImages images rest

/-- Resolution of the page selector against the rasterized page
sequence: `"all"` keeps every page with 0-based indices `0..len-1`,
otherwise the parsed page numbers are shifted to 0-based indices and
the images are selected by the comprehension above. -/
def resolveSelection (images : List Image) (pages : String) :
    Except Unit (List Image × List Int) :=
  if pages = "all" then
    .ok (images, (List.range images.length).map Int.ofNat)
  else
    (parsePages pages).bind fun nums =>
      let idxs := nums.map fun n => n - 1
      (selectImages images idxs).map fun sel => (sel, idxs)

/-- The per-page loop of `TableExtractorTool._extract_with_llm`:
`i` is the 0-based loop index over the selected images, the reported
page number is `page_indices[i] + 1`, `responses i` is the outcome of
the i-th `llm.invoke` call, and a response containing the sentinel
`"No tables found"` contributes no record. -/
def llmTableLoop (responses : Nat → Except Unit String) (idxs : List Int) :
    List Image → Nat → Except Unit (List TableRecord)
  | [], _ => .ok []
  | _ :: rest, i =>
    match pyIndex idxs (Int.ofNat i) with
    | none => .error ()
    | some idx =>
      match responses i with
      | .error e => .error e
      | .ok content =>
        match llmTableLoop responses idxs rest (i + 1) with
        | .error e => .error e
        | .ok recs =>
          if pyContains "No tables found".data content.data then .ok recs
          else .ok ({ page := idx + 1, markdown := content, data := none } :: recs)

/-- `TableExtractorTool._extract_with_llm`: conversion outcome,
per-call vision responses and the page selector; any exception in the
try block (bad selector, `IndexError`, a raising model call, failed
conversion) is swallowed into the empty list. -/
def extract_with_llm (convert : Except Unit (List Image))
    (responses : Nat → Except Unit String) (pages : String) : List TableRecord :=
  match convert with
  | .error _ => []
  | .ok images =>
    match resolveSelection images pages with
    | .error _ => []
    | .ok (sel, idxs) =>
      match llmTableLoop responses idxs sel 0 with
      | .error _ => []
      | .ok recs => recs

/-- `TableExtractorTool.extract_tables`: camelot first, the vision
extractor when that produced nothing.  The first component records
whether the vision extractor was invoked. -/
def extract_tables (camelot : Except Unit (List CamelotTable))
    (convert : Except Unit (List Image))
    (responses : Nat → Except Unit String) (pages : String) :
    Bool × List TableRecord :=
  let tables := extract_with_camelot camelot
  if tables.isEmpty then (true, extract_with_llm convert responses pages)
  else (false, tables)

/-! ### `PDFExtractionAgent` combiner (`agent.py`) -/

/-- One rendered table entry of `_format_tables`,
`"Table {i+1}:\n{markdown}\n\n"` for the 0-based position `i`. -/
def tableEntry (p : Nat × TableRecord) : String :=
  "Table " ++ toString (p.1 + 1) ++ ":\n" ++ p.2.markdown ++ "\n\n"

/-- One rendered image entry of `_format_images`,
`"Image {i+1}: {description}\n\n"` for the 0-based position `i`. -/
def imageEntry (p : Nat × ImageRecord) : String :=
  "Image " ++ toString (p.1 + 1) ++ ": " ++ p.2.description ++ "\n\n"

/-- `PDFExtractionAgent._format_tables`. -/
def format_tables (tables : List TableRecord) : String :=
  if tables.isEmpty then "No tables extracted"
  else (tables.enum).foldl (fun acc p => acc ++ tableEntry p) ""

/-- `PDFExtractionAgent._format_images`. -/
def format_images (images : List ImageRecord) : String :=
  if images.isEmpty then "No images extracted"
  else (images.enum).foldl (fun acc p => acc ++ imageEntry p) ""

/-- Fixed template text before the TEXT section. -/
def promptHeader : String :=
  "I have extracted the following elements from a PDF:\n\nTEXT:\n"

/-- Fixed template text before the TABLES section. -/
def promptTablesLabel : String := "\n\nTABLES:\n"

/-- Fixed template text before the IMAGES section. -/
def promptImagesLabel : String := "\n\nIMAGES:\n"

/-- Fixed template text after the IMAGES section. -/
def promptFooter : String :=
  "\n\nPlease combine these elements into a well-structured document, maintaining the logical flow.\nPlace tables and images near related text. Use markdown formatting.\n"

/-- `PDFExtractionAgent._create_combination_prompt`. -/
def create_combination_prompt (st : PDFExtractionState) : String :=
  promptHeader ++ st.text.getD "No text extracted"
    ++ promptTablesLabel ++ format_tables (st.tables.getD [])
    ++ promptImagesLabel ++ format_images (st.images.getD [])
    ++ promptFooter

/-- The string `needle` occurs somewhere inside `hay`. -/
def occursIn (needle hay : String) : Prop :=
  ∃ a b, hay = a ++ needle ++ b

/-- The rendering of a nonempty table list as the spec describes it:
the concatenated numbered entries. -/
def renderedTables (ts : List TableRecord) : String :=
  strJoin ((ts.enum).map tableEntry)

/-- The rendering of a nonempty image list as the spec describes it:
the concatenated numbered entries. -/
def renderedImages (ims : List ImageRecord) : String :=
  strJoin ((ims.enum).map imageEntry)

/-! ### Helper lemmas -/

theorem pyWords_empty : pyWords "" = [] := rfl

theorem is_text_incomplete_iff (t : String) :
    is_text_incomplete t = true ↔ (pyWords t).length < 100 := by
  unfold is_text_incomplete
  by_cases h0 : t = ""
  · subst h0
    simp [pyWords_empty]
  · rw [if_neg h0]
    by_cases hl : (pyWords t).length < 100
    · simp [hl]
    · simp [hl]

theorem ocrLoop_map_ok (ts : List String) :
    ∀ i, ocrLoop (ts.map .ok) i =
      .ok (strJoin ((ts.enumFrom i).map fun p => pageBlock (p.1 + 1) p.2)) := by
  induction ts with
  | nil => intro i; rfl
  | cons t ts ih =>
    intro i
    have h1 : ocrLoop ((t :: ts).map .ok) i =
        match ocrLoop (ts.map .ok) (i + 1) with
        | .error e => .error e
        | .ok s => .ok (pageBlock (i + 1) t ++ s) := rfl
    rw [h1, ih (i + 1)]
    rfl

theorem ocrLoop_error (post : List (Except Unit String)) :
    ∀ (pre : List (Except Unit String)) (i : Nat),
      ocrLoop (pre ++ .error () :: post) i = .error () := by
  intro pre
  induction pre with
  | nil => intro i; rfl
  | cons r rest ih =>
    intro i
    cases r with
    | error e => cases e; rfl
    | ok t =>
      have h1 : ocrLoop ((Except.ok t :: rest) ++ .error () :: post) i =
          match ocrLoop (rest ++ .error () :: post) (i + 1) with
          | .error e => .error e
          | .ok s => .ok (pageBlock (i + 1) t ++ s) := rfl
      rw [h1, ih (i + 1)]

/-! ### Claim theorems (text stage) -/

/-- Claim C1: with the pipeline configuration (fallback enabled, as the
orchestrator always calls it), the text stage invokes the vision
fallback exactly when the deterministic pypdf text has fewer than 100
whitespace-delimited tokens (the empty string included), and otherwise
returns the deterministic text untouched. -/
theorem text_stage_vision_iff_below_threshold
    (pypdf : Except Unit (List String))
    (ocr : Except Unit (List (Except Unit String))) :
    extract_text pypdf ocr true =
      if (pyWords (extract_with_pypdf pypdf)).length < 100 then
        (true, extract_with_llm_ocr ocr)
      else
        (false, extract_with_pypdf pypdf) := by
  simp only [extract_text]
  set t := extract_with_pypdf pypdf with ht
  by_cases h0 : t = ""
  · rw [h0]
    simp [pyWords_empty]
  · have hbe : (t == "") = false := by
      simp [h0]
    rw [hbe]
    by_cases hl : (pyWords t).length < 100
    · have : is_text_incomplete t = true := (is_text_incomplete_iff t).mpr hl
      rw [this, if_pos hl]
      rfl
    · have : is_text_incomplete t = false := by
        cases h : is_text_incomplete t
        · rfl
        · exact absurd ((is_text_incomplete_iff t).mp h) hl
      rw [this, if_neg hl]
      rfl

/-- Claim C9: when the deterministic pypdf text is empty, the OCR
fallback is invoked even with the fallback flag off; a nonempty
deterministic text is returned unchanged when the flag is off, however
few tokens it has. -/
theorem ocr_fallback_on_empty_text
    (pypdf : Except Unit (List String))
    (ocr : Except Unit (List (Except Unit String))) :
    (extract_with_pypdf pypdf = "" →
      extract_text pypdf ocr false = (true, extract_with_llm_ocr ocr)) ∧
    (extract_with_pypdf pypdf ≠ "" →
      extract_text pypdf ocr false = (false, extract_with_pypdf pypdf)) := by
  constructor
  · intro h
    simp only [extract_text, h]
    rfl
  · intro h
    have hbe : (extract_with_pypdf pypdf == "") = false := by
      simp [h]
    simp only [extract_text, hbe]
    rfl

/-- Witness for C9 at concrete inputs: a raising pypdf call gives the
empty deterministic text and the OCR result is returned; a short but
nonempty deterministic text is returned as is when the flag is off. -/
theorem ocr_fallback_on_empty_text_witness :
    (extract_with_pypdf (.error ()) = "" ∧
      extract_text (.error ()) (.ok [.ok "ocr"]) false =
        (true, extract_with_llm_ocr (.ok [.ok "ocr"]))) ∧
    (extract_with_pypdf (.ok ["hi"]) ≠ "" ∧
      extract_text (.ok ["hi"]) (.error ()) false =
        (false, extract_with_pypdf (.ok ["hi"]))) :=
  ⟨⟨rfl, (ocr_fallback_on_empty_text (.error ()) (.ok [.ok "ocr"])).1 rfl⟩,
    ⟨by decide, (ocr_fallback_on_empty_text (.ok ["hi"]) (.error ())).2 (by decide)⟩⟩

/-- Claim C4: in the vision text fallback, one raising page call makes
the whole extraction return the empty string wherever the failure sits
in the page sequence; when every page call returns, the result is the
concatenation of the numbered page blocks in page order. -/
theorem ocr_no_page_isolation (ts : List String)
    (pre post : List (Except Unit String)) :
    extract_with_llm_ocr (.ok (pre ++ .error () :: post)) = "" ∧
    extract_with_llm_ocr (.ok (ts.map .ok)) =
      strJoin ((ts.enum).map fun p => pageBlock (p.1 + 1) p.2) := by
  constructor
  · show (match ocrLoop (pre ++ .error () :: post) 0 with
      | .ok s => s
      | .error _ => "") = ""
    rw [ocrLoop_error post pre 0]
  · show (match ocrLoop (ts.map .ok) 0 with
      | .ok s => s
      | .error _ => "") = strJoin ((ts.enum).map fun p => pageBlock (p.1 + 1) p.2)
    rw [ocrLoop_map_ok ts 0]
    rfl

/-! ### Claim theorems (table stage) -/

/-- Claim C2: the deterministic camelot result is computed first and the
vision table extractor is invoked exactly when that result is the empty
sequence, a raising camelot call included (its error is mapped to the
empty sequence); when camelot found tables they are the result, and
otherwise the vision result is. -/
theorem tables_vision_iff_camelot_empty (camelot : Except Unit (List CamelotTable))
    (convert : Except Unit (List Image))
    (responses : Nat → Except Unit String) (pages : String) :
    ((extract_tables camelot convert responses pages).1 = true ↔
      extract_with_camelot camelot = []) ∧
    (extract_tables camelot convert responses pages).2 =
      (if extract_with_camelot camelot = [] then extract_with_llm convert responses pages
       else extract_with_camelot camelot) := by
  simp only [extract_tables]
  cases hc : extract_with_camelot camelot with
  | nil => simp
  | cons a l => simp

theorem llmTableLoop_data_none (responses : Nat → Except Unit String) (idxs : List Int) :
    ∀ (sel : List Image) (i : Nat) (recs : List TableRecord),
      llmTableLoop responses idxs sel i = .ok recs → ∀ r ∈ recs, r.data = none := by
  intro sel
  induction sel with
  | nil =>
    intro i recs h r hr
    cases h
    cases hr
  | cons img rest ih =>
    intro i recs h r hr
    rw [llmTableLoop] at h
    cases hidx : pyIndex idxs (Int.ofNat i) with
    | none => rw [hidx] at h; cases h
    | some idx =>
      rw [hidx] at h
      cases hres : responses i with
      | error e => rw [hres] at h; cases h
      | ok content =>
        rw [hres] at h
        cases hloop : llmTableLoop responses idxs rest (i + 1) with
        | error e => rw [hloop] at h; cases h
        | ok recs2 =>
          rw [hloop] at h
          replace h : (if pyContains "No tables found".data content.data = true then
                Except.ok recs2
              else
                Except.ok
                  (({ page := idx + 1, markdown := content, data := none } : TableRecord)
                    :: recs2)) = Except.ok recs := h
          by_cases hs : pyContains "No tables found".data content.data = true
          · rw [if_pos hs] at h
            cases h
            exact ih (i + 1) _ hloop r hr
          · rw [if_neg hs] at h
            cases h
            simp only [List.mem_cons] at hr
            rcases hr with rfl | hr1
            · rfl
            · exact ih (i + 1) recs2 hloop r hr1

/-- Claim C8: every record on the deterministic camelot path carries
structured row data, and every record on the vision path carries none. -/
theorem table_rows_asymmetry (camelot : Except Unit (List CamelotTable))
    (convert : Except Unit (List Image))
    (responses : Nat → Except Unit String) (pages : String) :
    (∀ r ∈ extract_with_camelot camelot, r.data.isSome = true) ∧
    (∀ r ∈ extract_with_llm convert responses pages, r.data = none) := by
  constructor
  · intro r hr
    cases camelot with
    | error e => cases hr
    | ok ts =>
      simp only [extract_with_camelot, List.mem_map] at hr
      obtain ⟨t, _, hteq⟩ := hr
      rw [← hteq]
      rfl
  · intro r hr
    unfold extract_with_llm at hr
    cases convert with
    | error e => cases hr
    | ok images =>
      replace hr : r ∈ (match resolveSelection images pages with
        | .error _ => ([] : List TableRecord)
        | .ok (sel, idxs) =>
          match llmTableLoop responses idxs sel 0 with
          | .error _ => []
          | .ok recs => recs) := hr
      cases hres : resolveSelection images pages with
      | error e => rw [hres] at hr; cases hr
      | ok p =>
        obtain ⟨sel, idxs⟩ := p
        rw [hres] at hr
        replace hr : r ∈ (match llmTableLoop responses idxs sel 0 with
          | .error _ => ([] : List TableRecord)
          | .ok recs => recs) := hr
        cases hloop : llmTableLoop responses idxs sel 0 with
        | error e => rw [hloop] at hr; cases hr
        | ok recs =>
          rw [hloop] at hr
          exact llmTableLoop_data_none responses idxs sel 0 recs hloop r hr

/-- Witness for C8 at concrete inputs: one camelot table with an empty
row list still gives present (`some`) structured data, one vision
response gives a record with absent data. -/
theorem table_rows_asymmetry_witness :
    ((⟨1, "m", some []⟩ : TableRecord) ∈ extract_with_camelot (.ok [⟨1, "m", []⟩]) ∧
      (⟨1, "m", some []⟩ : TableRecord).data.isSome = true) ∧
    ((⟨1, "tbl", none⟩ : TableRecord) ∈ extract_with_llm (.ok [0]) (fun _ => .ok "tbl") "all" ∧
      (⟨1, "tbl", none⟩ : TableRecord).data = none) := by
  have mem1 : (⟨1, "m", some []⟩ : TableRecord) ∈ extract_with_camelot (.ok [⟨1, "m", []⟩]) := by
    decide
  have mem2 : (⟨1, "tbl", none⟩ : TableRecord) ∈
      extract_with_llm (.ok [0]) (fun _ => .ok "tbl") "all" := by
    decide
  exact ⟨⟨mem1, (table_rows_asymmetry (.ok [⟨1, "m", []⟩]) (.error ())
      (fun _ => .ok "tbl") "all").1 _ mem1⟩,
    ⟨mem2, (table_rows_asymmetry (.ok [⟨1, "m", []⟩]) (.ok [0])
      (fun _ => .ok "tbl") "all").2 _ mem2⟩⟩

/-- Claim C5: the selector `"1,3,5-7"` parses to exactly the 1-based
page numbers 1, 3, 5, 6, 7 (ranges inclusive), and the selector
`"all"` resolves to every rasterized page with its 0-based index. -/
theorem page_selector_examples :
    parsePages "1,3,5-7" = .ok [1, 3, 5, 6, 7] ∧
    ∀ images : List Image, resolveSelection images "all" =
      .ok (images, (List.range images.length).map Int.ofNat) := by
  refine ⟨rfl, fun images => ?_⟩
  unfold resolveSelection
  rw [if_pos rfl]

/-- Claim C10: in the vision table extractor, a 1-based page number `n`
past the end of the document is silently dropped by the bound guard
(no error), while the selector token `0` parses fine and its 0-based
index `-1` picks the last page of the document. -/
theorem vision_page_bounds (images : List Image) (n : Nat)
    (hgt : images.length < n) (hne : images ≠ []) :
    parsePages "0" = .ok [0] ∧
    selectImages images [(n : Int) - 1] = .ok [] ∧
    ∃ last, images.getLast? = some last ∧ selectImages images [-1] = .ok [last] := by
  have hlen : 0 < images.length := List.length_pos.mpr hne
  have hl1 : (1 : Int) ≤ (images.length : Int) := by exact_mod_cast hlen
  refine ⟨rfl, ?_, ?_⟩
  · have hcond : ¬ ((n : Int) - 1 < (images.length : Int)) := by
      have : (images.length : Int) < (n : Int) := by exact_mod_cast hgt
      omega
    unfold selectImages
    rw [if_neg hcond]
    rfl
  · refine ⟨images.getLast hne, List.getLast?_eq_getLast_of_ne_nil hne, ?_⟩
    have hpy : pyIndex images (-1) = some (images.getLast hne) := by
      unfold pyIndex
      rw [if_neg (by omega), if_pos (by omega)]
      have harg : (((images.length : Int) + (-1)).toNat) = images.length - 1 := by
        omega
      rw [harg]
      rw [List.getLast_eq_getElem images hne]
      exact List.get?_eq_get (by omega)
    unfold selectImages
    rw [if_pos (by omega), hpy]
    rfl

/-- Witness for C10 at a concrete two-page document: page number 3 is
dropped, page number 0 selects the last page. -/
theorem vision_page_bounds_witness :
    ([10, 20] : List Image).length < 3 ∧ ([10, 20] : List Image) ≠ [] ∧
    (parsePages "0" = .ok [0] ∧
      selectImages [10, 20] [(3 : Int) - 1] = .ok [] ∧
      ∃ last, ([10, 20] : List Image).getLast? = some last ∧
        selectImages [10, 20] [-1] = .ok [last]) :=
  ⟨by decide, by decide, vision_page_bounds [10, 20] 3 (by decide) (by decide)⟩

/-! ### Claim theorems (error swallowing, C7 and C3) -/

/-- Counterexample to claim C7: an unreadable document (every library
call raises at the container level) does not abort the pipeline with a
fatal error; the text stage returns the empty string and the table
stage the empty list, both normally. -/
theorem source_unreadable_no_abort :
    extract_text (.error ()) (.error ()) true = (true, "") ∧
    extract_tables (.error ()) (.error ()) (fun _ => .error ()) "all" = (true, []) :=
  ⟨rfl, rfl⟩

/-- Amended C7: when the document cannot be opened, the extractors
swallow the error; the text stage falls back to OCR, which also fails
and yields the empty string, and the table stage yields the empty
list — the pipeline continues with empty results instead of aborting. -/
theorem source_unreadable_swallowed (f : Bool)
    (responses : Nat → Except Unit String) (pages : String) :
    extract_text (.error ()) (.error ()) f = (true, "") ∧
    extract_tables (.error ()) (.error ()) responses pages = (true, []) :=
  ⟨rfl, rfl⟩

/-- Counterexample to claim C3: the malformed selector token `"x"`
makes the page parse raise, but table extraction neither fails fatally
nor skips the extraction work: camelot runs first and its tables are
returned, and with camelot empty the result is the empty list,
returned normally. -/
theorem invalid_pagespec_not_fatal :
    parsePages "1,x" = .error () ∧
    extract_tables (.ok [⟨2, "MTable", [[("a", "b")]]⟩]) (.ok [0])
        (fun _ => .error ()) "1,x" =
      (false, [⟨2, "MTable", some [[("a", "b")]]⟩]) ∧
    extract_tables (.error ()) (.ok [0]) (fun _ => .error ()) "1,x" = (true, []) :=
  ⟨rfl, rfl, rfl⟩

/-- Amended C3: a malformed page selector raises inside the vision
extractor, the blanket handler maps it to the empty list, and table
extraction returns the camelot result if nonempty and the empty list
otherwise; no fatal error is surfaced and deterministic extraction is
still attempted first. -/
theorem invalid_pagespec_swallowed (camelot : Except Unit (List CamelotTable))
    (convert : Except Unit (List Image)) (responses : Nat → Except Unit String)
    (pages : String) (hall : pages ≠ "all") (hbad : parsePages pages = .error ()) :
    extract_with_llm convert responses pages = [] ∧
    extract_tables camelot convert responses pages =
      (if extract_with_camelot camelot = [] then (true, [])
       else (false, extract_with_camelot camelot)) := by
  have hllm : extract_with_llm convert responses pages = [] := by
    unfold extract_with_llm
    cases convert with
    | error e => rfl
    | ok images =>
      have hsel : resolveSelection images pages = .error () := by
        unfold resolveSelection
        rw [if_neg hall, hbad]
        rfl
      show (match resolveSelection images pages with
        | .error _ => ([] : List TableRecord)
        | .ok (sel, idxs) =>
          match llmTableLoop responses idxs sel 0 with
          | .error _ => []
          | .ok recs => recs) = []
      rw [hsel]
  refine ⟨hllm, ?_⟩
  simp only [extract_tables]
  cases hc : extract_with_camelot camelot with
  | nil => simp [hllm]
  | cons a l => simp

/-- Witness for the amended C3 at the concrete selector `"1,x"`. -/
theorem invalid_pagespec_swallowed_witness :
    ("1,x" : String) ≠ "all" ∧ parsePages "1,x" = .error () ∧
    (extract_with_llm (.ok [0]) (fun _ => .error ()) "1,x" = [] ∧
      extract_tables (.error ()) (.ok [0]) (fun _ => .error ()) "1,x" =
        (if extract_with_camelot (.error ()) = [] then (true, [])
         else (false, extract_with_camelot (.error ())))) :=
  ⟨by decide, rfl,
    invalid_pagespec_swallowed (.error ()) (.ok [0]) (fun _ => .error ()) "1,x"
      (by decide) rfl⟩

/-! ### Claim theorems (combiner, C6) -/

theorem foldl_append_entries {α : Type} (f : α → String) :
    ∀ (l : List α) (s : String),
      l.foldl (fun acc p => acc ++ f p) s = s ++ strJoin (l.map f) := by
  intro l
  induction l with
  | nil =>
    intro s
    simp only [List.foldl_nil, List.map_nil, strJoin, String.append_empty]
  | cons x xs ih =>
    intro s
    simp only [List.foldl_cons, List.map_cons, strJoin]
    rw [ih, String.append_assoc]

theorem format_tables_eq_rendered (ts : List TableRecord) (h : ts ≠ []) :
    format_tables ts = renderedTables ts := by
  unfold format_tables renderedTables
  rw [if_neg (by simp [List.isEmpty_iff, h]), foldl_append_entries tableEntry ts.enum ""]
  exact String.empty_append _

theorem format_images_eq_rendered (ims : List ImageRecord) (h : ims ≠ []) :
    format_images ims = renderedImages ims := by
  unfold format_images renderedImages
  rw [if_neg (by simp [List.isEmpty_iff, h]), foldl_append_entries imageEntry ims.enum ""]
  exact String.empty_append _

set_option maxRecDepth 8000 in
/-- Counterexample to claim C6: the sentinel can occur in the prompt
although the tables sequence is nonempty, because nothing stops a
table markdown from containing the literal sentinel text; so
"contains the sentinel exactly when empty" fails in the only-if
direction. -/
theorem combiner_sentinel_collision :
    occursIn "No tables extracted"
      (create_combination_prompt
        ⟨"d.pdf", none, some [⟨1, "No tables extracted", none⟩], some [], none⟩) ∧
    (some [(⟨1, "No tables extracted", none⟩ : TableRecord)]).getD [] ≠ [] := by
  constructor
  · exact ⟨promptHeader ++ "No text extracted" ++ promptTablesLabel ++ "Table 1:\n",
      "\n\n" ++ promptImagesLabel ++ "No images extracted" ++ promptFooter, rfl⟩
  · decide

/-- Amended C6: when the tables (resp. images) sequence is empty the
prompt contains the literal sentinel "No tables extracted" (resp.
"No images extracted"); the formatter renders an empty sequence as
exactly the sentinel and a nonempty one as the concatenated numbered
entries (so the sentinel can also reach the prompt through adversarial
table or image content, which is why only the if direction holds of
the original claim). -/
theorem combiner_sentinels (st : PDFExtractionState)
    (ts : List TableRecord) (ims : List ImageRecord) :
    (st.tables.getD [] = [] →
      occursIn "No tables extracted" (create_combination_prompt st)) ∧
    (st.images.getD [] = [] →
      occursIn "No images extracted" (create_combination_prompt st)) ∧
    format_tables [] = "No tables extracted" ∧
    format_images [] = "No images extracted" ∧
    (ts ≠ [] → format_tables ts = renderedTables ts) ∧
    (ims ≠ [] → format_images ims = renderedImages ims) := by
  refine ⟨?_, ?_, rfl, rfl, format_tables_eq_rendered ts, format_images_eq_rendered ims⟩
  · intro h
    refine ⟨promptHeader ++ st.text.getD "No text extracted" ++ promptTablesLabel,
      promptImagesLabel ++ format_images (st.images.getD []) ++ promptFooter, ?_⟩
    unfold create_combination_prompt
    rw [h]
    have hft : format_tables [] = "No tables extracted" := rfl
    rw [hft]
    simp [String.append_assoc]
  · intro h
    refine ⟨promptHeader ++ st.text.getD "No text extracted" ++ promptTablesLabel
        ++ format_tables (st.tables.getD []) ++ promptImagesLabel,
      promptFooter, ?_⟩
    unfold create_combination_prompt
    rw [h]
    have hfi : format_images [] = "No images extracted" := rfl
    rw [hfi]

/-- Witness for the amended C6: a state with empty table and image
sequences whose prompt contains both sentinels, plus one nonempty
table list and one nonempty image list rendered as numbered entries. -/
theorem combiner_sentinels_witness :
    ((⟨"d.pdf", none, some [], some [], none⟩ : PDFExtractionState).tables.getD [] = [] ∧
      occursIn "No tables extracted"
        (create_combination_prompt ⟨"d.pdf", none, some [], some [], none⟩)) ∧
    ((⟨"d.pdf", none, some [], some [], none⟩ : PDFExtractionState).images.getD [] = [] ∧
      occursIn "No images extracted"
        (create_combination_prompt ⟨"d.pdf", none, some [], some [], none⟩)) ∧
    (([⟨1, "M", none⟩] : List TableRecord) ≠ [] ∧
      format_tables [⟨1, "M", none⟩] = renderedTables [⟨1, "M", none⟩]) ∧
    (([⟨1, none, "D"⟩] : List ImageRecord) ≠ [] ∧
      format_images [⟨1, none, "D"⟩] = renderedImages [⟨1, none, "D"⟩]) :=
  ⟨⟨rfl, (combiner_sentinels ⟨"d.pdf", none, some [], some [], none⟩ [] []).1 rfl⟩,
    ⟨rfl, (combiner_sentinels ⟨"d.pdf", none, some [], some [], none⟩ [] []).2.1 rfl⟩,
    ⟨by decide, (combiner_sentinels ⟨"d.pdf", none, some [], some [], none⟩
        [⟨1, "M", none⟩] []).2.2.2.2.1 (by decide)⟩,
    ⟨by decide, (combiner_sentinels ⟨"d.pdf", none, some [], some [], none⟩
        [] [⟨1, none, "D"⟩]).2.2.2.2.2 (by decide)⟩⟩

end PdfAgent
